import Mathlib

/-!
# Verification of the vision-AI face-detection application

Shallow embedding of the repository's core routines:

* `VoiceDescription.tsx` — narration trigger (delta-gated speech announcements);
* `WebcamCapture.tsx` — frame-scheduler loop (`detectFaces`), throttling,
  overlay drawing and stop/settle interleaving;
* `ImageUpload.tsx` — still-image overlay rendering (`detectFacesInImage`);
* `App.tsx` — session timer.

JavaScript numbers are modelled as exact rationals (`ℚ`); all the concrete
inputs appearing below are far from any floating-point rounding boundary.
`Math.round` is modelled as `jsRound` (round half toward positive infinity,
as in JavaScript).  Times from `performance.now()` are rationals in
milliseconds.
-/

namespace VisionAI

/-- The `Face` record shared by all components: bounding-box corners in source
pixel space plus a detection probability (`interface Face` in the sources). -/
structure Face where
  topLeftX : ℚ
  topLeftY : ℚ
  bottomRightX : ℚ
  bottomRightY : ℚ
  probability : ℚ
deriving DecidableEq

/-- JavaScript `Math.round`: round half toward positive infinity. -/
def jsRound (q : ℚ) : ℤ := ⌊q + 1 / 2⌋

/-! ## Narration trigger — `VoiceDescription.tsx` -/

/-- The narration-relevant component state of `VoiceDescription`:
`isSpeaking` and `lastFaceCount` (the spec's `lastAnnouncedFaceCount`). -/
structure NarrState where
  isSpeaking : Bool
  lastFaceCount : ℕ
deriving DecidableEq

/-- `getPositionDescription` (VoiceDescription.tsx lines 75–96): coarse
position label from the box center against thirds of a frame size fixed to
640×480 by literals inside the function — it takes no resolution argument. -/
def getPositionDescription (f : Face) : String :=
  let centerX := (f.topLeftX + f.bottomRightX) / 2
  let centerY := (f.topLeftY + f.bottomRightY) / 2
  let width : ℚ := 640
  let height : ℚ := 480
  let horizontal :=
    if centerX < width * (33 / 100) then "left"
    else if centerX > width * (67 / 100) then "right"
    else "center"
  let vertical :=
    if centerY < height * (33 / 100) then "upper"
    else if centerY > height * (67 / 100) then "lower"
    else "middle"
  vertical ++ " " ++ horizontal

/-- Average confidence as a rounded percentage:
`Math.round(faces.reduce((sum, f) => sum + f.probability, 0) / faces.length * 100)`. -/
def avgConfidencePct (faces : List Face) : ℤ :=
  jsRound ((faces.map Face.probability).sum / faces.length * 100)

/-- The description composed by the `useEffect` in VoiceDescription.tsx
(lines 57–68), by the face count of the incoming batch. -/
def composeDescription : List Face → String
  | [] => "No faces currently detected in the camera view. Please position yourself in front of the camera for face detection."
  | [f] => "One face detected with " ++ toString (jsRound (f.probability * 100)) ++
      "% confidence, positioned in the " ++ getPositionDescription f ++ " of the frame."
  | faces => toString faces.length ++ " faces detected with an average confidence of " ++
      toString (avgConfidencePct faces) ++ "%."

/-- `speakDescription` (lines 30–49): returns the utterance text handed to
`window.speechSynthesis.speak`, or `none` when the guard
`if (!enabled || !speechSupported) return;` fires and nothing is dispatched. -/
def speakDispatch (enabled supported : Bool) (text : String) : Option String :=
  if !enabled || !supported then none else some text

/-- The batch-processing `useEffect` of VoiceDescription.tsx (lines 51–73):
early-returns when narration is disabled; otherwise, when
`Math.abs(currentFaceCount - lastFaceCount) >= 1`, composes a description,
calls `speakDescription`, and sets `lastFaceCount` to the new count
unconditionally — whether or not the dispatch inside `speakDescription`
actually happened.  Returns the new state and the dispatched utterance. -/
def processBatch (s : NarrState) (faces : List Face) (enabled supported : Bool) :
    NarrState × Option String :=
  if !enabled then (s, none)
  else if 1 ≤ ((faces.length : ℤ) - (s.lastFaceCount : ℤ)).natAbs then
    ({ s with lastFaceCount := faces.length },
     speakDispatch enabled supported (composeDescription faces))
  else (s, none)

/-- The operations of `VoiceDescription` that can touch `NarrState`:
batch processing, the manual describe-view action, the utterance's
`onstart` / `onend` / `onerror` callbacks, and the `stopSpeaking` handler. -/
inductive NarrOp where
  | batch (faces : List Face) (enabled supported : Bool)
  | describeView
  | onStart
  | onEnd
  | onError
  | stopSpeaking (supported : Bool)

/-- State transition of `VoiceDescription` for each operation, from the
source: `speakDetailedDescription` and dispatch itself leave both fields
alone; `utterance.onstart` sets `isSpeaking := true`; `onend` / `onerror`
set it to `false`; `stopSpeaking` (lines 135–140) cancels and sets
`isSpeaking := false` synchronously whenever speech is supported. -/
def narrStep (s : NarrState) : NarrOp → NarrState
  | .batch faces enabled supported => (processBatch s faces enabled supported).1
  | .describeView => s
  | .onStart => { s with isSpeaking := true }
  | .onEnd => { s with isSpeaking := false }
  | .onError => { s with isSpeaking := false }
  | .stopSpeaking supported => if supported then { s with isSpeaking := false } else s

/-- A concrete face used in witnesses and counterexamples. -/
def sampleFace : Face := ⟨10, 10, 60, 80, 19 / 20⟩

/-! ## Overlay renderer — `WebcamCapture.tsx` (live) and `ImageUpload.tsx` (still) -/

/-- Effective hue of a CSS `hsl()` color: the hue argument is an angle in
degrees and is interpreted modulo 360, so `hsl(360+x, …)` draws the same
color as `hsl(x, …)`. -/
def cssHue (h : ℤ) : ℤ := h % 360

/-- The canvas operations the two renderers perform, one constructor per
drawing primitive of the source (styling attributes such as dash patterns,
shadows and gradients are not observable in this model). -/
inductive DrawOp where
  | clear
  | resize (w h : ℕ)
  | boxOutline (hue : ℤ) (x y w h : ℚ)
  | cornerAccent (hue : ℤ) (x y size : ℚ)
  | labelBadge (hue : ℤ) (x y w h : ℚ) (texts : List String)
  | confidenceBar (hue : ℤ) (x y w h : ℚ)
deriving DecidableEq

/-- One iteration of the `faces.forEach` in `detectFaces`
(WebcamCapture.tsx lines 132–187): box outline, four L-shaped corner accents
of fixed size 20, and one label badge reading
`Face (index+1) • (rounded probability)%`, placed above the box when there is
room and below otherwise. -/
def webcamFaceOps (index : ℕ) (face : Face) : List DrawOp :=
  let x1 := face.topLeftX
  let y1 := face.topLeftY
  let x2 := face.bottomRightX
  let y2 := face.bottomRightY
  let width := x2 - x1
  let height := y2 - y1
  let hue : ℤ := 120 + (index : ℤ) * 60
  let cornerSize : ℚ := 20
  let labelHeight : ℚ := 30
  let labelY := if y1 > labelHeight + 10 then y1 - labelHeight - 5 else y2 + 10
  [DrawOp.boxOutline hue x1 y1 width height,
   DrawOp.cornerAccent hue x1 y1 cornerSize,
   DrawOp.cornerAccent hue x2 y1 cornerSize,
   DrawOp.cornerAccent hue x1 y2 cornerSize,
   DrawOp.cornerAccent hue x2 y2 cornerSize,
   DrawOp.labelBadge hue x1 labelY 180 labelHeight
     ["Face " ++ toString (index + 1) ++ " • " ++
      toString (jsRound (face.probability * 100)) ++ "%"]]

/-- One iteration of the `faces.forEach` in `detectFacesInImage`
(ImageUpload.tsx lines 67–145): a glow outline inflated by 3px, the dashed
box, four corner accents sized `min(width, height) * 0.15`, a label badge
with title and confidence lines, and a confidence progress bar of width
`probability * (labelWidth - 30)`. -/
def imageFaceOps (index : ℕ) (face : Face) : List DrawOp :=
  let x1 := face.topLeftX
  let y1 := face.topLeftY
  let x2 := face.bottomRightX
  let y2 := face.bottomRightY
  let width := x2 - x1
  let height := y2 - y1
  let hue : ℤ := 120 + (index : ℤ) * 60
  let cornerSize := min width height * (15 / 100)
  let labelWidth := max 250 (width * (8 / 10))
  let labelHeight : ℚ := 45
  let labelY := if y1 > labelHeight + 10 then y1 - labelHeight - 5 else y2 + 10
  [DrawOp.boxOutline hue (x1 - 3) (y1 - 3) (width + 6) (height + 6),
   DrawOp.boxOutline hue x1 y1 width height,
   DrawOp.cornerAccent hue x1 y1 cornerSize,
   DrawOp.cornerAccent hue x2 y1 cornerSize,
   DrawOp.cornerAccent hue x1 y2 cornerSize,
   DrawOp.cornerAccent hue x2 y2 cornerSize,
   DrawOp.labelBadge hue x1 labelY labelWidth labelHeight
     ["Face " ++ toString (index + 1),
      toString (jsRound (face.probability * 100)) ++ "% confidence"],
   DrawOp.confidenceBar hue (x1 + 15) (labelY + labelHeight - 12)
     (face.probability * (labelWidth - 30)) 4]

/-- The `forEach` loop over the batch, threading the 0-based index. -/
def renderLoop (faceOps : ℕ → Face → List DrawOp) : ℕ → List Face → List DrawOp
  | _, [] => []
  | i, f :: fs => faceOps i f ++ renderLoop faceOps (i + 1) fs

/-- Live-stream render: `ctx.clearRect` over the whole canvas, then the
per-face loop (WebcamCapture.tsx lines 130–187). -/
def webcamRender (faces : List Face) : List DrawOp :=
  DrawOp.clear :: renderLoop webcamFaceOps 0 faces

/-- Still-image render: `ctx.clearRect`, then the per-face loop
(ImageUpload.tsx lines 65–145). -/
def imageRender (faces : List Face) : List DrawOp :=
  DrawOp.clear :: renderLoop imageFaceOps 0 faces

/-- Extract the effective CSS hue of a label-badge draw. -/
def labelHueOf : DrawOp → Option ℤ
  | .labelBadge hue _ _ _ _ _ => some (cssHue hue)
  | _ => none

/-- The effective hues of the label draws issued by a sequence of canvas
operations, in order. -/
def labelCssHues (ops : List DrawOp) : List ℤ := ops.filterMap labelHueOf

theorem labelCssHues_append (a b : List DrawOp) :
    labelCssHues (a ++ b) = labelCssHues a ++ labelCssHues b :=
  List.filterMap_append a b labelHueOf

theorem labelCssHues_renderLoop (faceOps : ℕ → Face → List DrawOp)
    (hops : ∀ i f, labelCssHues (faceOps i f) = [cssHue (120 + (i : ℤ) * 60)])
    (fs : List Face) : ∀ i : ℕ,
    labelCssHues (renderLoop faceOps i fs) =
      (List.range fs.length).map (fun k : ℕ => cssHue (120 + ((i : ℤ) + (k : ℤ)) * 60)) := by
  induction fs with
  | nil => intro i; simp [renderLoop, labelCssHues]
  | cons f fs ih =>
    intro i
    show labelCssHues (faceOps i f ++ renderLoop faceOps (i + 1) fs) = _
    rw [labelCssHues_append, hops, ih]
    rw [List.length_cons, List.range_succ_eq_map, List.map_cons, List.map_map]
    simp only [List.singleton_append, Nat.cast_zero, add_zero, List.cons.injEq]
    refine ⟨trivial, ?_⟩
    apply List.map_congr_left
    intro k _
    simp only [Function.comp_apply]
    congr 1
    push_cast
    ring

/-! ## Frame scheduler — the `detectFaces` loop of `WebcamCapture.tsx`

The loop is cooperative: `requestAnimationFrame` registers at most one
callback; `detectFaces` either returns early (re-registering itself, or not),
or starts an asynchronous `model.estimateFaces` call and re-registers only
when that call settles.  `stopWebcam` stops the media tracks and cancels a
pending callback; it cannot cancel an in-flight detection.  The fps
bookkeeping (lines 104–112) feeds only the FPS display and is not modelled. -/

/-- One display-frame callback occasion: the `performance.now()` timestamp in
milliseconds, whether the capture source has a valid frame (`ctx` obtained,
`video.videoWidth !== 0` and `video.readyState === 4`, lines 90–93), and the
current video dimensions. -/
structure FrameTick where
  now : ℚ
  ready : Bool
  vidW : ℕ
  vidH : ℕ

/-- The loop-relevant mutable state: the `isStreaming` flag, whether an
animation-frame callback is registered (`animationFrameRef`), whether a
detection call is awaiting settlement, `lastDetectionTime`, and the overlay
canvas dimensions. -/
structure LoopState where
  streaming : Bool
  pending : Bool
  inFlight : Bool
  lastDetectionTime : ℚ
  canvasW : ℕ
  canvasH : ℕ
deriving DecidableEq

/-- Events driving the loop: a display tick firing the scheduled callback, the
in-flight `estimateFaces` promise settling with its predicted faces, and a
call to `stopWebcam`. -/
inductive LoopEvent where
  | tick (t : FrameTick)
  | settle (faces : List Face)
  | stop

/-- Observable actions of the loop: invoking the detector at a time, invoking
the `onFaceDetected` callback with a batch, mutating the overlay canvas, and
stopping the media tracks. -/
inductive LoopAction where
  | detectStart (now : ℚ)
  | deliverBatch (faces : List Face)
  | canvas (op : DrawOp)
  | stopTracks
deriving DecidableEq

/-- One step of the loop, from WebcamCapture.tsx:

* tick (`detectFaces` invocation, lines 83–117): nothing happens if no
  callback was registered; the guard on line 84 returns without rescheduling
  when not streaming; the not-ready guard (line 90) and the 67 ms throttle
  gate (line 97) reschedule and return; otherwise `lastDetectionTime` is set,
  the canvas is resized if its dimensions differ from the video's
  (lines 114–117, a canvas mutation), and the detector is invoked.
* settle (the code after `await model.estimateFaces`, lines 120–192): calls
  `setFaceCount` and `onFaceDetected`, clears and redraws the overlay, and
  reschedules via `requestAnimationFrame`.  The source re-checks no liveness
  flag between the `await` and these effects.
* stop (`stopWebcam`, lines 70–81): stops the tracks, clears `isStreaming`,
  and cancels the pending callback. -/
def loopStep (s : LoopState) : LoopEvent → LoopState × List LoopAction
  | .tick t =>
    if s.pending = false then (s, [])
    else if s.streaming = false then ({ s with pending := false }, [])
    else if t.ready = false then (s, [])
    else if t.now - s.lastDetectionTime < 67 then (s, [])
    else
      let s2 := { s with lastDetectionTime := t.now, inFlight := true, pending := false }
      if s.canvasW = t.vidW ∧ s.canvasH = t.vidH then
        (s2, [LoopAction.detectStart t.now])
      else
        ({ s2 with canvasW := t.vidW, canvasH := t.vidH },
         [LoopAction.canvas (DrawOp.resize t.vidW t.vidH), LoopAction.detectStart t.now])
  | .settle faces =>
    if s.inFlight = true then
      ({ s with inFlight := false, pending := true },
       LoopAction.deliverBatch faces :: (webcamRender faces).map LoopAction.canvas)
    else (s, [])
  | .stop => ({ s with streaming := false, pending := false }, [LoopAction.stopTracks])

/-- Run a sequence of loop events from a state, collecting the action log. -/
def runLoop (s : LoopState) : List LoopEvent → LoopState × List LoopAction
  | [] => (s, [])
  | e :: evs =>
    ((runLoop (loopStep s e).1 evs).1, (loopStep s e).2 ++ (runLoop (loopStep s e).1 evs).2)

/-- The loop state right after streaming starts and the `useEffect` on
line 201 schedules the first callback: `lastDetectionTime` is the initial 0
of the ref, and the canvas element still has the HTML default 300×150 size. -/
def initLoopState : LoopState := ⟨true, true, false, 0, 300, 150⟩

/-- The times at which the log shows a detector invocation, in order. -/
def startsOf : List LoopAction → List ℚ
  | [] => []
  | .detectStart t :: rest => t :: startsOf rest
  | .deliverBatch _ :: rest => startsOf rest
  | .canvas _ :: rest => startsOf rest
  | .stopTracks :: rest => startsOf rest

/-- Actions that deliver a batch to consumers or mutate the overlay. -/
def effectAction : LoopAction → Bool
  | .deliverBatch _ => true
  | .canvas _ => true
  | _ => false

/-- `true` when no batch delivery and no canvas mutation appears after the
first `stopTracks` of the log. -/
def noEffectsAfterStop : List LoopAction → Bool
  | [] => true
  | .stopTracks :: rest => rest.all fun a => !effectAction a
  | .detectStart _ :: rest => noEffectsAfterStop rest
  | .deliverBatch _ :: rest => noEffectsAfterStop rest
  | .canvas _ :: rest => noEffectsAfterStop rest

/-- The canvas mutations contained in a log. -/
def canvasOpsOf : List LoopAction → List DrawOp
  | [] => []
  | .canvas op :: rest => op :: canvasOpsOf rest
  | .detectStart _ :: rest => canvasOpsOf rest
  | .deliverBatch _ :: rest => canvasOpsOf rest
  | .stopTracks :: rest => canvasOpsOf rest

/-- The overlay surface: dimensions plus a pixel store (an abstract color
code per integer coordinate). -/
structure Canvas where
  width : ℕ
  height : ℕ
  pixels : ℕ → ℕ → ℤ

/-- Membership in the axis-aligned bounding region of a primitive. -/
def inRect (x y w h : ℚ) (px py : ℕ) : Prop :=
  x ≤ (px : ℚ) ∧ (px : ℚ) ≤ x + w ∧ y ≤ (py : ℚ) ∧ (py : ℚ) ≤ y + h

instance (x y w h : ℚ) (px py : ℕ) : Decidable (inRect x y w h px py) := by
  unfold inRect; infer_instance

/-- Effect of one canvas operation on the surface.  Resizing a canvas resets
its pixel store (per the HTML canvas contract), `clearRect` over the full
surface zeroes it, and each painting primitive recolors pixels within its
bounding region; finer rasterization detail is irrelevant to the claims. -/
def applyDraw (c : Canvas) : DrawOp → Canvas
  | .clear => { c with pixels := fun _ _ => 0 }
  | .resize w h => ⟨w, h, fun _ _ => 0⟩
  | .boxOutline hue x y w h =>
    { c with pixels := fun px py =>
        if inRect x y w h px py then cssHue hue + 1 else c.pixels px py }
  | .cornerAccent hue x y size =>
    { c with pixels := fun px py =>
        if inRect (x - size) (y - size) (2 * size) (2 * size) px py then cssHue hue + 1
        else c.pixels px py }
  | .labelBadge hue x y w h _ =>
    { c with pixels := fun px py =>
        if inRect x y w h px py then cssHue hue + 1 else c.pixels px py }
  | .confidenceBar hue x y w h =>
    { c with pixels := fun px py =>
        if inRect x y w h px py then cssHue hue + 1 else c.pixels px py }

/-- Apply a sequence of canvas operations in order. -/
def applyDraws (c : Canvas) (ops : List DrawOp) : Canvas := ops.foldl applyDraw c

/-- A concrete surface for witnesses. -/
def blankCanvas : Canvas := ⟨300, 150, fun _ _ => 0⟩

/-! ## Session timer — `App.tsx` -/

/-- App-level session state: the accumulated `sessionTime` in seconds and
whether detection is currently active. -/
structure AppState where
  sessionTime : ℕ
  streaming : Bool
deriving DecidableEq

/-- Events relevant to the session timer. -/
inductive AppEvent where
  | secondTick
  | startDetection
  | stopDetection

/-- The session-timer `useEffect` of App.tsx (lines 60–66) registers a
1-second `setInterval` once on mount with an empty dependency list and
clears it only on unmount: every tick runs `setSessionTime(prev => prev + 1)`
unconditionally, and neither starting nor stopping detection touches the
timer or the accumulated value anywhere in the component. -/
def appStep (s : AppState) : AppEvent → AppState
  | .secondTick => { s with sessionTime := s.sessionTime + 1 }
  | .startDetection => { s with streaming := true }
  | .stopDetection => { s with streaming := false }

/-! ## Supporting lemmas -/

theorem startsOf_append (a b : List LoopAction) :
    startsOf (a ++ b) = startsOf a ++ startsOf b := by
  induction a with
  | nil => rfl
  | cons x a ih => cases x <;> simp [startsOf, ih]

theorem startsOf_map_canvas (ops : List DrawOp) :
    startsOf (ops.map LoopAction.canvas) = [] := by
  induction ops with
  | nil => rfl
  | cons op ops ih => simp [startsOf, ih]

/-- Each loop step either invokes the detector not at all and keeps
`lastDetectionTime`, or invokes it exactly once at the new
`lastDetectionTime`, which the throttle gate puts at least 67 ms past the old
one. -/
theorem loopStep_starts (s : LoopState) (e : LoopEvent) :
    (startsOf (loopStep s e).2 = [] ∧
      (loopStep s e).1.lastDetectionTime = s.lastDetectionTime) ∨
    (startsOf (loopStep s e).2 = [(loopStep s e).1.lastDetectionTime] ∧
      s.lastDetectionTime + 67 ≤ (loopStep s e).1.lastDetectionTime) := by
  cases e with
  | tick t =>
    simp only [loopStep]
    split_ifs with h1 h2 h3 h4 h5
    · exact Or.inl ⟨rfl, rfl⟩
    · exact Or.inl ⟨rfl, rfl⟩
    · exact Or.inl ⟨rfl, rfl⟩
    · exact Or.inl ⟨rfl, rfl⟩
    · exact Or.inr ⟨rfl, by have := not_lt.mp h4; linarith⟩
    · exact Or.inr ⟨rfl, by have := not_lt.mp h4; linarith⟩
  | settle faces =>
    simp only [loopStep]
    split_ifs with h
    · exact Or.inl ⟨by simp [startsOf, startsOf_map_canvas], rfl⟩
    · exact Or.inl ⟨rfl, rfl⟩
  | stop => exact Or.inl ⟨rfl, rfl⟩

/-- Over any event sequence, consecutive (indeed all pairs of) detector
invocations are at least 67 ms apart, and all of them lie at least 67 ms past
the starting `lastDetectionTime`. -/
theorem runLoop_starts (evs : List LoopEvent) : ∀ s : LoopState,
    List.Pairwise (fun a b : ℚ => a + 67 ≤ b) (startsOf (runLoop s evs).2) ∧
    ∀ x ∈ startsOf (runLoop s evs).2, s.lastDetectionTime + 67 ≤ x := by
  induction evs with
  | nil => intro s; simp [runLoop, startsOf]
  | cons e evs ih =>
    intro s
    obtain ⟨ih1, ih2⟩ := ih (loopStep s e).1
    have hlog : (runLoop s (e :: evs)).2 =
        (loopStep s e).2 ++ (runLoop (loopStep s e).1 evs).2 := rfl
    rcases loopStep_starts s e with ⟨h0, hlast⟩ | ⟨h0, hge⟩
    · rw [hlog, startsOf_append, h0, List.nil_append]
      refine ⟨ih1, fun x hx => ?_⟩
      have := ih2 x hx
      rwa [hlast] at this
    · rw [hlog, startsOf_append, h0, List.singleton_append]
      constructor
      · rw [List.pairwise_cons]
        exact ⟨ih2, ih1⟩
      · intro x hx
        rcases List.mem_cons.mp hx with hx | hx
        · rw [hx]; exact hge
        · have := ih2 x hx
          linarith

theorem processBatch_isSpeaking (s : NarrState) (faces : List Face)
    (enabled supported : Bool) :
    (processBatch s faces enabled supported).1.isSpeaking = s.isSpeaking := by
  unfold processBatch
  split
  · rfl
  · split <;> rfl

theorem processBatch_dispatch_iff (s : NarrState) (faces : List Face) :
    (processBatch s faces true true).2.isSome = true ↔
      1 ≤ ((faces.length : ℤ) - (s.lastFaceCount : ℤ)).natAbs := by
  unfold processBatch
  by_cases h : 1 ≤ ((faces.length : ℤ) - (s.lastFaceCount : ℤ)).natAbs
  · simp [h, speakDispatch]
  · simp [h]

/-! ## The claims -/

/-- C1: for every sequence of display-frame ticks (and settlements and
stops), the Frame Scheduler never issues two detection calls less than 67 ms
apart — all pairs of detector-invocation times in the log of any run differ
by at least 67 ms — and on a tick where the elapsed time since the last
accepted detection is below the fixed 67 ms minimum interval, the loop
reschedules with its state unchanged and without invoking the detector. -/
theorem scheduler_throttles_detection :
    (∀ evs : List LoopEvent,
      List.Pairwise (fun a b : ℚ => a + 67 ≤ b)
        (startsOf (runLoop initLoopState evs).2)) ∧
    ∀ (s : LoopState) (t : FrameTick), s.pending = true → s.streaming = true →
      t.ready = true → t.now - s.lastDetectionTime < 67 →
      loopStep s (.tick t) = (s, []) := by
  constructor
  · intro evs
    exact (runLoop_starts evs initLoopState).1
  · intro s t hp hs hr hlt
    simp [loopStep, hp, hs, hr, hlt]

/-- Witness for C1: a concrete tick 30 ms into the run is rejected by the
throttle gate with no detector call. -/
theorem scheduler_throttles_detection_witness :
    loopStep initLoopState (LoopEvent.tick ⟨30, true, 640, 480⟩) =
      (initLoopState, []) :=
  scheduler_throttles_detection.2 initLoopState ⟨30, true, 640, 480⟩ rfl rfl rfl
    (by norm_num [initLoopState])

/-- The race trace for C2: an accepted tick starts a detection, `stopWebcam`
runs while that call is in flight, then the detection settles. -/
def raceTrace : List LoopEvent :=
  [LoopEvent.tick ⟨100, true, 640, 480⟩, LoopEvent.stop,
   LoopEvent.settle [sampleFace]]

/-- C2 counterexample: it is not true that after `stop()` no pre-stop
detection delivers its batch — on `raceTrace` the log contains the
`onFaceDetected` call and the overlay redraw after `stopTracks`, because the
completion handler after `await model.estimateFaces` re-checks no liveness
flag. -/
theorem stop_race_cex :
    ¬ ∀ evs : List LoopEvent,
        noEffectsAfterStop (runLoop initLoopState evs).2 = true := by
  intro h
  have h1 : loopStep initLoopState (LoopEvent.tick ⟨100, true, 640, 480⟩) =
      (⟨true, false, true, 100, 640, 480⟩,
       [LoopAction.canvas (DrawOp.resize 640 480), LoopAction.detectStart 100]) := by
    norm_num [loopStep, initLoopState]
  have h2 := h raceTrace
  have hlog : (runLoop initLoopState raceTrace).2 =
      [LoopAction.canvas (DrawOp.resize 640 480), LoopAction.detectStart 100,
       LoopAction.stopTracks,
       LoopAction.deliverBatch [sampleFace]] ++
        (webcamRender [sampleFace]).map LoopAction.canvas := by
    show (runLoop initLoopState
        (LoopEvent.tick ⟨100, true, 640, 480⟩ :: LoopEvent.stop ::
          LoopEvent.settle [sampleFace] :: [])).2 = _
    simp only [runLoop, h1]
    rfl
  rw [hlog] at h2
  exact absurd h2 (by decide)

/-- C2 (amended): `stopWebcam` stops the tracks, clears the streaming flag
and cancels the pending callback, but the completion handler contains no
liveness check: a detection that is in flight when `stop()` runs still
delivers its batch — `onFaceDetected` is invoked and the overlay cleared and
redrawn — when it settles. -/
theorem inflight_settle_still_delivers (s : LoopState) (faces : List Face)
    (h : s.inFlight = true) :
    loopStep s LoopEvent.stop =
      ({ s with streaming := false, pending := false }, [LoopAction.stopTracks]) ∧
    loopStep s (LoopEvent.settle faces) =
      ({ s with inFlight := false, pending := true },
       LoopAction.deliverBatch faces :: (webcamRender faces).map LoopAction.canvas) :=
  ⟨rfl, by simp only [loopStep]; rw [if_pos h]⟩

/-- Witness for C2's amended claim: a concrete post-stop settlement delivers
its batch and redraws. -/
theorem inflight_settle_still_delivers_witness :
    loopStep ⟨false, false, true, 100, 640, 480⟩ (LoopEvent.settle [sampleFace]) =
      (⟨false, true, false, 100, 640, 480⟩,
       LoopAction.deliverBatch [sampleFace] ::
        (webcamRender [sampleFace]).map LoopAction.canvas) :=
  (inflight_settle_still_delivers ⟨false, false, true, 100, 640, 480⟩ [sampleFace] rfl).2

/-- C3: for every batch of size N, both the live-stream and the still-image
renderer issue exactly N label draws, and the label of the detection at
0-based index i is drawn with effective hue (120 + 60·i) mod 360 (the source
writes the unreduced `120 + index * 60` into the `hsl()` string, whose hue
argument CSS interprets modulo 360). -/
theorem overlay_label_draws (faces : List Face) :
    ((labelCssHues (webcamRender faces)).length = faces.length ∧
      labelCssHues (webcamRender faces) =
        (List.range faces.length).map (fun i : ℕ => (120 + 60 * (i : ℤ)) % 360)) ∧
    (labelCssHues (imageRender faces)).length = faces.length ∧
      labelCssHues (imageRender faces) =
        (List.range faces.length).map (fun i : ℕ => (120 + 60 * (i : ℤ)) % 360) := by
  have hw : ∀ (i : ℕ) (f : Face),
      labelCssHues (webcamFaceOps i f) = [cssHue (120 + (i : ℤ) * 60)] := by
    intro i f
    simp [webcamFaceOps, labelCssHues, labelHueOf]
  have hi : ∀ (i : ℕ) (f : Face),
      labelCssHues (imageFaceOps i f) = [cssHue (120 + (i : ℤ) * 60)] := by
    intro i f
    simp [imageFaceOps, labelCssHues, labelHueOf]
  have hren : ∀ ops, labelCssHues (DrawOp.clear :: ops) = labelCssHues ops := by
    intro ops
    simp [labelCssHues, labelHueOf, List.filterMap_cons]
  have w1 : labelCssHues (webcamRender faces) =
      (List.range faces.length).map (fun i : ℕ => (120 + 60 * (i : ℤ)) % 360) := by
    rw [webcamRender, hren, labelCssHues_renderLoop webcamFaceOps hw faces 0]
    apply List.map_congr_left
    intro k _
    unfold cssHue
    congr 1
    push_cast
    ring
  have i1 : labelCssHues (imageRender faces) =
      (List.range faces.length).map (fun i : ℕ => (120 + 60 * (i : ℤ)) % 360) := by
    rw [imageRender, hren, labelCssHues_renderLoop imageFaceOps hi faces 0]
    apply List.map_congr_left
    intro k _
    unfold cssHue
    congr 1
    push_cast
    ring
  refine ⟨⟨?_, w1⟩, ?_, i1⟩
  · rw [w1]; simp
  · rw [i1]; simp

/-- C4 counterexample: it is not true that `isSpeaking` moves from true to
false only via the `onend` / `onerror` callbacks — the `stopSpeaking` handler
(VoiceDescription.tsx lines 135–140) also resets it, synchronously, whenever
speech is supported. -/
theorem isSpeaking_reset_cex :
    ¬ ∀ (s : NarrState) (op : NarrOp), s.isSpeaking = true →
        (narrStep s op).isSpeaking = false →
        op = NarrOp.onEnd ∨ op = NarrOp.onError := by
  intro h
  rcases h ⟨true, 0⟩ (NarrOp.stopSpeaking true) rfl rfl with hc | hc <;> cases hc

/-- C4 (amended): `isSpeaking` transitions from true to false only via the
utterance's `onend` or `onerror` callback, or via the synchronous
`stopSpeaking` action when speech is supported; no other operation of the
component resets it. -/
theorem isSpeaking_reset_paths (s : NarrState) (op : NarrOp)
    (hs : s.isSpeaking = true) (hf : (narrStep s op).isSpeaking = false) :
    op = NarrOp.onEnd ∨ op = NarrOp.onError ∨ op = NarrOp.stopSpeaking true := by
  cases op with
  | batch faces enabled supported =>
    rw [show (narrStep s (NarrOp.batch faces enabled supported)).isSpeaking =
        s.isSpeaking from processBatch_isSpeaking s faces enabled supported] at hf
    rw [hs] at hf
    exact Bool.noConfusion hf
  | describeView =>
    rw [show narrStep s NarrOp.describeView = s from rfl, hs] at hf
    exact Bool.noConfusion hf
  | onStart =>
    rw [show (narrStep s NarrOp.onStart).isSpeaking = true from rfl] at hf
    exact Bool.noConfusion hf
  | onEnd => exact Or.inl rfl
  | onError => exact Or.inr (Or.inl rfl)
  | stopSpeaking supported =>
    cases supported with
    | true => exact Or.inr (Or.inr rfl)
    | false =>
      rw [show narrStep s (NarrOp.stopSpeaking false) = s from rfl, hs] at hf
      exact Bool.noConfusion hf

/-- Witness for C4's amended claim at the `onend` callback. -/
theorem isSpeaking_reset_paths_witness :
    NarrOp.onEnd = NarrOp.onEnd ∨ NarrOp.onEnd = NarrOp.onError ∨
      NarrOp.onEnd = NarrOp.stopSpeaking true :=
  isSpeaking_reset_paths ⟨true, 3⟩ NarrOp.onEnd rfl rfl

/-- C5 counterexample: it is not true that `lastFaceCount` keeps its value
whenever no utterance is dispatched — with narration enabled but speech
synthesis unsupported, a one-face batch against `lastFaceCount = 0` dispatches
nothing yet still sets `lastFaceCount` to 1 (the `setLastFaceCount` on
VoiceDescription.tsx line 71 runs unconditionally after the delta check). -/
theorem lastFaceCount_unsupported_cex :
    ¬ ∀ (s : NarrState) (faces : List Face) (enabled supported : Bool),
        (processBatch s faces enabled supported).2 = none →
        (processBatch s faces enabled supported).1.lastFaceCount = s.lastFaceCount := by
  intro h
  have h2 := h ⟨false, 0⟩ [sampleFace] true false (by decide)
  exact absurd h2 (by decide)

/-- C5 (amended): when narration is enabled and the count delta is at least
1, `lastFaceCount` is set to the incoming batch's count regardless of whether
an utterance was actually handed to the speech output — in particular also
when speech synthesis is unsupported. -/
theorem lastFaceCount_updates_on_delta (s : NarrState) (faces : List Face)
    (supported : Bool)
    (h : 1 ≤ ((faces.length : ℤ) - (s.lastFaceCount : ℤ)).natAbs) :
    (processBatch s faces true supported).1.lastFaceCount = faces.length := by
  unfold processBatch
  simp [h]

/-- Witness for C5's amended claim: one face against `lastFaceCount = 0`,
speech unsupported, still updates the count. -/
theorem lastFaceCount_updates_on_delta_witness :
    (processBatch ⟨false, 0⟩ [sampleFace] true false).1.lastFaceCount =
      [sampleFace].length :=
  lastFaceCount_updates_on_delta ⟨false, 0⟩ [sampleFace] false (by decide)

/-- C6: the narration trigger no-ops when narration is disabled, and
otherwise (speech being supported) dispatches an utterance if and only if
`|batch.count - lastFaceCount| >= 1`; in particular, against
`lastFaceCount = 2`, a batch of count 2 dispatches nothing while batches of
count 3 and count 1 do. -/
theorem narration_delta_gating :
    (∀ (s : NarrState) (faces : List Face) (supported : Bool),
        processBatch s faces false supported = (s, none)) ∧
    (∀ (s : NarrState) (faces : List Face),
        (processBatch s faces true true).2.isSome = true ↔
          1 ≤ ((faces.length : ℤ) - (s.lastFaceCount : ℤ)).natAbs) ∧
    (processBatch ⟨false, 2⟩ [sampleFace, sampleFace] true true).2 = none ∧
    (processBatch ⟨false, 2⟩ [sampleFace, sampleFace, sampleFace] true true).2.isSome
      = true ∧
    (processBatch ⟨false, 2⟩ [sampleFace] true true).2.isSome = true := by
  refine ⟨fun s faces supported => rfl, processBatch_dispatch_iff, ?_, ?_, ?_⟩
  · decide
  · decide
  · decide

/-- C7: for the single-face batch with box (10,10)–(60,80) and confidence
0.95, the narration is exactly the sentence containing
"One face detected with 95% confidence" and the position phrase
"upper left"; the position comes from the box center against thirds of the
frame size fixed to 640×480 inside `getPositionDescription`, which takes no
capture-resolution argument. -/
theorem narration_single_face_scenario :
    composeDescription [⟨10, 10, 60, 80, 19 / 20⟩] =
      "One face detected with 95% confidence, positioned in the upper left of the frame." ∧
    getPositionDescription ⟨10, 10, 60, 80, 19 / 20⟩ = "upper left" := by
  constructor
  · unfold composeDescription getPositionDescription jsRound
    norm_num
    rfl
  · unfold getPositionDescription
    norm_num
    rfl

/-- C8: an empty batch arriving with `lastFaceCount = 1` (narration enabled,
speech supported) dispatches the fixed "no faces" message and resets
`lastFaceCount` to 0. -/
theorem narration_empty_after_one :
    processBatch ⟨false, 1⟩ [] true true =
      (⟨false, 0⟩, some "No faces currently detected in the camera view. Please position yourself in front of the camera for face detection.") := by
  decide

/-- C9 counterexample: it is not true that `sessionTime` stops incrementing
while detection is stopped — the `setInterval` of App.tsx lines 60–66 runs
unconditionally, so a 1-second tick in the stopped state still increments. -/
theorem session_timer_cex :
    ¬ ∀ s : AppState, s.streaming = false →
        (appStep s AppEvent.secondTick).sessionTime = s.sessionTime := by
  intro h
  have h2 := h ⟨5, false⟩ rfl
  exact absurd h2 (by decide)

/-- C9 (amended): the 1-second cadence increments `sessionTime`
unconditionally from component mount — also while detection is stopped — and
stopping or restarting detection neither pauses nor resets the timer. -/
theorem session_timer_unconditional (s : AppState) :
    (appStep s AppEvent.secondTick).sessionTime = s.sessionTime + 1 ∧
    (appStep s AppEvent.stopDetection).sessionTime = s.sessionTime ∧
    (appStep s AppEvent.startDetection).sessionTime = s.sessionTime :=
  ⟨rfl, rfl, rfl⟩

/-- C10: on a display tick where the frame is not ready or the 67 ms throttle
gate rejects the tick, the loop performs no action — in particular no canvas
operation — so the overlay surface's pixel contents are left completely
unchanged and the previous accepted cycle's drawing persists (the next redraw
happens only in the settle handler of a later accepted detection). -/
theorem rejected_tick_keeps_overlay (c : Canvas) (s : LoopState) (t : FrameTick)
    (hp : s.pending = true) (hs : s.streaming = true)
    (h : t.ready = false ∨ t.now - s.lastDetectionTime < 67) :
    loopStep s (.tick t) = (s, []) ∧
    applyDraws c (canvasOpsOf (loopStep s (.tick t)).2) = c := by
  have heq : loopStep s (LoopEvent.tick t) = (s, []) := by
    rcases h with h | h
    · simp [loopStep, hp, hs, h]
    · by_cases hr : t.ready = false
      · simp [loopStep, hp, hs, hr]
      · simp [loopStep, hp, hs, hr, h]
  exact ⟨heq, by rw [heq]; rfl⟩

/-- Witness for C10: a concrete throttled tick leaves a concrete canvas
untouched. -/
theorem rejected_tick_keeps_overlay_witness :
    loopStep initLoopState (LoopEvent.tick ⟨40, true, 640, 480⟩) =
      (initLoopState, []) ∧
    applyDraws blankCanvas
        (canvasOpsOf (loopStep initLoopState (LoopEvent.tick ⟨40, true, 640, 480⟩)).2) =
      blankCanvas :=
  rejected_tick_keeps_overlay blankCanvas initLoopState ⟨40, true, 640, 480⟩ rfl rfl
    (Or.inr (by norm_num [initLoopState]))

end VisionAI
